import Mathlib

/-!
Shallow embedding of scripts/clear_locomo_chunks.py.

The script reads a JSON dataset file, derives an agent identifier for each
record via the external pure function sample_id_to_uuid, and issues one
HTTP POST per record to the memory server, printing progress lines and
stopping on the first failure.

Modelling choices:
- the external function sample_id_to_uuid is not part of the given source,
  so it is an arbitrary parameter uuid : String → String of the model;
- the file system is modelled by a Dataset value: the path may be missing,
  the file contents may fail to parse, or they parse into a list of records;
- a record is modelled by its sample_id field, which may be absent
  (json object without the key, giving a KeyError at access time);
- the server is an oracle Nat → Resp giving, for the n-th issued request,
  either an HTTP status code or a transport failure (timeout);
- console output is the list of printed lines, in order;
- the process result is an Outcome: exitOk models the normal return
  (process exit status zero), every other constructor models an unhandled
  exception propagating out of main (non-zero exit status).
-/

/-- One dataset record: a JSON object whose sample_id field, when present,
holds a string; none models a record lacking the field. -/
structure Sample where
  sample_id : Option String
deriving DecidableEq, Repr

/-- What the runner finds at the dataset path. -/
inductive Dataset
| missing
| malformed
| records (samples : List Sample)
deriving DecidableEq, Repr

/-- Result of one HTTP request: a status code, or a transport-level
failure (the 30 second timeout elapsing, connection refused). -/
inductive Resp
| status (code : Nat)
| fail
deriving DecidableEq, Repr

/-- One outbound clearing request, as built by client.post in the loop. -/
structure Request where
  method : String
  url : String
  agent_id : String
  timeout : Nat
deriving DecidableEq, Repr

/-- How the process ends: exitOk is a normal return from main; the other
constructors are unhandled exceptions propagating out (non-zero exit). -/
inductive Outcome
| exitOk
| httpError (code : Nat)
| parseError
| keyError
| requestError
deriving DecidableEq, Repr

/-- Everything observable about one run: the requests issued in order,
the console lines printed in order, and how the process ended. -/
structure RunResult where
  requests : List Request
  output : List String
  outcome : Outcome
deriving DecidableEq, Repr

/-- httpx success test: raise_for_status passes exactly on 2xx. -/
def is2xx (code : Nat) : Bool :=
  decide (200 ≤ code ∧ code < 300)

/-- A response that lets the loop continue: a 2xx status. -/
def respOk : Resp → Bool
  | Resp.status code => is2xx code
  | Resp.fail => false

/-- The request client.post builds: POST to base_url/memory/clear-chunks,
JSON body carrying agent_id, timeout=30. -/
def clearChunksRequest (base_url agent_id : String) : Request :=
  { method := "POST"
  , url := base_url ++ "/memory/clear-chunks"
  , agent_id := agent_id
  , timeout := 30 }

/-- The per-record progress line printed after a successful request. -/
def clearedLine (sample_id agent_id : String) : String :=
  "  " ++ sample_id ++ " (" ++ agent_id ++ "): cleared"

/-- The line printed before the loop, reporting the record count. -/
def headerLine (n : Nat) : String :=
  "Clearing chunks for " ++ toString n ++ " LOCOMO agents…"

/-- The line printed when the dataset path does not exist. -/
def notFoundLine (data_path : String) : String :=
  "Error: " ++ data_path ++ " not found"

/-- The for-loop over samples: n counts the requests already issued, so
the server oracle is consulted at successive indices. Returns the
requests issued, the lines printed, and how the loop ended: exitOk means
the loop ran off the end of the list. -/
def clearLoop (uuid : String → String) (base_url : String) (server : Nat → Resp) :
    List Sample → Nat → List Request × List String × Outcome
  | [], _ => ([], [], Outcome.exitOk)
  | s :: rest, n =>
    match s.sample_id with
    | none => ([], [], Outcome.keyError)
    | some sid =>
      let req := clearChunksRequest base_url (uuid sid)
      match server n with
      | Resp.fail => ([req], [], Outcome.requestError)
      | Resp.status code =>
        if is2xx code then
          let r := clearLoop uuid base_url server rest (n + 1)
          (req :: r.1, clearedLine sid (uuid sid) :: r.2.1, r.2.2)
        else
          ([req], [], Outcome.httpError code)

/-- The whole run of the main function (the name main itself is reserved by Lean): check the path, parse, print the header, run
the loop, and print Done! only when the loop completed normally. -/
def mainRun (uuid : String → String) (data_path base_url : String)
    (dataset : Dataset) (server : Nat → Resp) : RunResult :=
  match dataset with
  | Dataset.missing =>
      { requests := [], output := [notFoundLine data_path], outcome := Outcome.exitOk }
  | Dataset.malformed =>
      { requests := [], output := [], outcome := Outcome.parseError }
  | Dataset.records samples =>
      let r := clearLoop uuid base_url server samples 0
      match r.2.2 with
      | Outcome.exitOk =>
          { requests := r.1
          , output := headerLine samples.length :: r.2.1 ++ ["Done!"]
          , outcome := Outcome.exitOk }
      | oc =>
          { requests := r.1
          , output := headerLine samples.length :: r.2.1
          , outcome := oc }

/-- A record carrying the given sample_id. -/
def goodSample (sid : String) : Sample :=
  { sample_id := some sid }

/-- A record lacking the sample_id field. -/
def badSample : Sample :=
  { sample_id := none }

/-- A valid dataset file: a JSON list of objects each carrying a string
sample_id, given here by the list of those strings. -/
def validDataset (sids : List String) : Dataset :=
  Dataset.records (sids.map goodSample)

/-- A server whose every response is a success status. -/
def allSuccess (server : Nat → Resp) : Prop :=
  ∀ n, respOk (server n) = true

/-- Concrete server answering 200 to everything, for witnesses. -/
def okServer : Nat → Resp := fun _ => Resp.status 200

/-- Concrete server answering 500 to everything, for counterexamples. -/
def errServer : Nat → Resp := fun _ => Resp.status 500

/-- With every response a success, the loop visits every record: one
request and one cleared line per record, in order, ending normally. -/
theorem clearLoop_all_success (uuid : String → String) (base_url : String)
    (server : Nat → Resp) (h : allSuccess server) :
    ∀ (sids : List String) (n : Nat),
      clearLoop uuid base_url server (sids.map goodSample) n =
        (sids.map (fun sid => clearChunksRequest base_url (uuid sid)),
         sids.map (fun sid => clearedLine sid (uuid sid)),
         Outcome.exitOk) := by
  intro sids
  induction sids with
  | nil => intro n; rfl
  | cons sid rest ih =>
    intro n
    have hn := h n
    cases hs : server n with
    | fail => rw [hs] at hn; simp [respOk] at hn
    | status code =>
      rw [hs] at hn
      simp only [respOk] at hn
      simp [clearLoop, goodSample, hs, hn, ih (n + 1)]

/-- Claim C1 is false as stated: for the valid two-record dataset with
sample ids A and B, against a server answering 500, the runner issues one
request, not one per record. -/
theorem c1_counterexample :
    (mainRun id "data" "u" (validDataset ["A", "B"]) errServer).requests.length ≠
      ["A", "B"].length := by
  decide

/-- Claim C1 (amended): provided every issued request receives a 2xx
response, the runner issues exactly one clearing request per record, the
i-th request carrying agent_id equal to uuid applied to the i-th record
sample_id. -/
theorem mainRun_one_request_per_record (uuid : String → String)
    (data_path base_url : String) (sids : List String) (server : Nat → Resp)
    (h : allSuccess server) :
    (mainRun uuid data_path base_url (validDataset sids) server).requests =
      sids.map (fun sid => clearChunksRequest base_url (uuid sid)) ∧
    (mainRun uuid data_path base_url (validDataset sids) server).requests.length =
      sids.length := by
  have hl := clearLoop_all_success uuid base_url server h sids 0
  constructor
  · simp [mainRun, validDataset, hl]
  · simp [mainRun, validDataset, hl]

/-- Witness for the amended C1 at a concrete input. -/
theorem mainRun_one_request_per_record_witness :
    (mainRun id "data" "u" (validDataset ["A", "B"]) okServer).requests =
      ["A", "B"].map (fun sid => clearChunksRequest "u" (id sid)) ∧
    (mainRun id "data" "u" (validDataset ["A", "B"]) okServer).requests.length =
      (["A", "B"] : List String).length :=
  mainRun_one_request_per_record id "data" "u" ["A", "B"] okServer (fun _ => rfl)

/-- On a records dataset the run is the loop, with the header line first
and Done! appended exactly when the loop ended normally. -/
theorem mainRun_records (uuid : String → String) (data_path base_url : String)
    (samples : List Sample) (server : Nat → Resp) :
    mainRun uuid data_path base_url (Dataset.records samples) server =
      { requests := (clearLoop uuid base_url server samples 0).1
      , output :=
          if (clearLoop uuid base_url server samples 0).2.2 = Outcome.exitOk then
            headerLine samples.length ::
              (clearLoop uuid base_url server samples 0).2.1 ++ ["Done!"]
          else
            headerLine samples.length ::
              (clearLoop uuid base_url server samples 0).2.1
      , outcome := (clearLoop uuid base_url server samples 0).2.2 } := by
  rcases hr : clearLoop uuid base_url server samples 0 with ⟨reqs, lines, oc⟩
  cases oc <;> simp [mainRun, hr]

/-- The i-th request the loop issues is the request of the i-th record. -/
theorem clearLoop_get? (uuid : String → String) (base_url : String)
    (server : Nat → Resp) :
    ∀ (sids : List String) (n i : Nat) (req : Request),
      (clearLoop uuid base_url server (sids.map goodSample) n).1.get? i = some req →
      ∃ sid, sids.get? i = some sid ∧ req = clearChunksRequest base_url (uuid sid) := by
  intro sids
  induction sids with
  | nil => intro n i req h; simp [clearLoop] at h
  | cons sid rest ih =>
    intro n i req h
    cases hs : server n with
    | fail =>
      simp only [List.map_cons, clearLoop, goodSample, hs] at h
      cases i with
      | zero => simp at h; exact ⟨sid, rfl, h.symm⟩
      | succ j => simp at h
    | status code =>
      by_cases h2 : is2xx code = true
      · simp only [List.map_cons, clearLoop, goodSample, hs, h2, if_true] at h
        cases i with
        | zero => simp at h; exact ⟨sid, rfl, h.symm⟩
        | succ j =>
          simp only [List.get?_cons_succ] at h
          exact ih (n + 1) j req h
      · simp only [List.map_cons, clearLoop, goodSample, hs, h2, if_false] at h
        cases i with
        | zero => simp at h; exact ⟨sid, rfl, h.symm⟩
        | succ j => simp at h

/-- Claim C2: for every valid dataset and any server behaviour, the i-th
request the runner issues is exactly the request derived from the i-th
record of the file, so requests follow file order and no later record is
ever served before an earlier one. -/
theorem mainRun_requests_in_record_order (uuid : String → String)
    (data_path base_url : String) (sids : List String) (server : Nat → Resp)
    (i : Nat) (req : Request)
    (h : (mainRun uuid data_path base_url (validDataset sids) server).requests.get? i =
      some req) :
    ∃ sid, sids.get? i = some sid ∧ req = clearChunksRequest base_url (uuid sid) := by
  apply clearLoop_get? uuid base_url server sids 0 i req
  simp only [validDataset] at h
  rw [mainRun_records uuid data_path base_url (sids.map goodSample) server] at h
  exact h

/-- Witness for C2 at a concrete input. -/
theorem mainRun_requests_in_record_order_witness :
    ∃ sid, (["A", "B"] : List String).get? 1 = some sid ∧
      clearChunksRequest "u" "B" = clearChunksRequest "u" (id sid) :=
  mainRun_requests_in_record_order id "data" "u" ["A", "B"] okServer 1
    (clearChunksRequest "u" "B") (by decide)

/-- The header line is never the completion line. -/
theorem headerLine_ne_done (n : Nat) : headerLine n ≠ "Done!" := by
  intro h
  have hc := congrArg String.length h
  rw [headerLine, String.length_append, String.length_append] at hc
  have h1 : ("Clearing chunks for " : String).length = 20 := rfl
  have h2 : (" LOCOMO agents…" : String).length = 15 := rfl
  have h3 : ("Done!" : String).length = 5 := rfl
  omega

/-- A per-record progress line is never the completion line. -/
theorem clearedLine_ne_done (sid aid : String) : clearedLine sid aid ≠ "Done!" := by
  intro h
  have hc := congrArg String.length h
  rw [clearedLine, String.length_append, String.length_append, String.length_append,
    String.length_append] at hc
  have h1 : ("  " : String).length = 2 := rfl
  have h2 : (" (" : String).length = 2 := rfl
  have h3 : ("): cleared" : String).length = 10 := rfl
  have h4 : ("Done!" : String).length = 5 := rfl
  omega

/-- If the first j responses succeed and the response to the j-th record
request is a non-2xx status, the loop issues requests for the first j + 1
records only, prints cleared lines for the first j only, and ends with
the HTTP error. -/
theorem clearLoop_fail_at (uuid : String → String) (base_url : String) :
    ∀ (sids : List String) (server : Nat → Resp) (j n code : Nat),
      j < sids.length →
      (∀ i, i < j → respOk (server (n + i)) = true) →
      server (n + j) = Resp.status code →
      is2xx code = false →
      clearLoop uuid base_url server (sids.map goodSample) n =
        ((sids.take (j + 1)).map (fun sid => clearChunksRequest base_url (uuid sid)),
         (sids.take j).map (fun sid => clearedLine sid (uuid sid)),
         Outcome.httpError code) := by
  intro sids
  induction sids with
  | nil => intro server j n code hj _ _ _; simp at hj
  | cons sid rest ih =>
    intro server j n code hj hok hfail hbad
    cases j with
    | zero =>
      rw [Nat.add_zero] at hfail
      simp [clearLoop, goodSample, hfail, hbad]
    | succ j' =>
      have h0 : respOk (server n) = true := by
        have := hok 0 (Nat.succ_pos j')
        rwa [Nat.add_zero] at this
      cases hs : server n with
      | fail => rw [hs] at h0; simp [respOk] at h0
      | status c0 =>
        rw [hs] at h0
        simp only [respOk] at h0
        have ihres := ih server j' (n + 1) code (by simpa using hj)
          (fun i hi => by
            have := hok (i + 1) (Nat.succ_lt_succ hi)
            rwa [show n + (i + 1) = n + 1 + i by omega] at this)
          (by rwa [show n + 1 + j' = n + (j' + 1) by omega])
          hbad
        simp [clearLoop, goodSample, hs, h0, ihres]

/-- Concrete server accepting the first request and answering 500 to
every later one, for witnesses. -/
def mixedServer : Nat → Resp :=
  fun n => if n = 0 then Resp.status 200 else Resp.status 500

/-- Claim C3: if the request for record j gets a non-2xx status while all
earlier requests succeeded, the run fails immediately: exactly j + 1
requests were issued (none for later records), the output holds cleared
lines for the first j records only, the run ends with the propagated HTTP
error, and Done! is never printed. -/
theorem mainRun_fail_fast (uuid : String → String) (data_path base_url : String)
    (sids : List String) (server : Nat → Resp) (j code : Nat)
    (hj : j < sids.length)
    (hok : ∀ i, i < j → respOk (server i) = true)
    (hfail : server j = Resp.status code)
    (hbad : is2xx code = false) :
    (mainRun uuid data_path base_url (validDataset sids) server).requests.length = j + 1 ∧
    (mainRun uuid data_path base_url (validDataset sids) server).output =
      headerLine sids.length ::
        (sids.take j).map (fun sid => clearedLine sid (uuid sid)) ∧
    (mainRun uuid data_path base_url (validDataset sids) server).outcome =
      Outcome.httpError code ∧
    "Done!" ∉ (mainRun uuid data_path base_url (validDataset sids) server).output := by
  have hloop := clearLoop_fail_at uuid base_url sids server j 0 code hj
    (fun i hi => by rw [Nat.zero_add]; exact hok i hi)
    (by rwa [Nat.zero_add])
    hbad
  have hmain := mainRun_records uuid data_path base_url (sids.map goodSample) server
  rw [hloop] at hmain
  simp only [validDataset]
  rw [hmain]
  refine ⟨?_, ?_, ?_, ?_⟩
  · simp [List.length_take]
    omega
  · simp
  · simp
  · intro hmem
    simp only [] at hmem
    rcases List.mem_cons.mp hmem with h | h
    · exact headerLine_ne_done _ h.symm
    · have h2 : "Done!" ∈ sids.map (fun sid => clearedLine sid (uuid sid)) := by
        have h3 : "Done!" ∈ (sids.map (fun sid => clearedLine sid (uuid sid))).take j := by
          simpa [List.map_take] using h
        exact List.mem_of_mem_take h3
      rcases List.mem_map.mp h2 with ⟨sid, _, heq⟩
      exact clearedLine_ne_done _ _ heq

/-- Witness for C3 at a concrete input. -/
theorem mainRun_fail_fast_witness :
    (mainRun id "data" "u" (validDataset ["A", "B"]) mixedServer).requests.length = 1 + 1 ∧
    (mainRun id "data" "u" (validDataset ["A", "B"]) mixedServer).output =
      headerLine (["A", "B"] : List String).length ::
        ((["A", "B"] : List String).take 1).map (fun sid => clearedLine sid (id sid)) ∧
    (mainRun id "data" "u" (validDataset ["A", "B"]) mixedServer).outcome =
      Outcome.httpError 500 ∧
    "Done!" ∉ (mainRun id "data" "u" (validDataset ["A", "B"]) mixedServer).output :=
  mainRun_fail_fast id "data" "u" ["A", "B"] mixedServer 1 500 (by decide) (by decide)
    (by decide) (by decide)

/-- Claim C4: when the dataset path does not exist, the runner prints the
message naming the missing path, issues zero HTTP requests, and returns
normally (exit status zero), not a crash. -/
theorem mainRun_missing_dataset (uuid : String → String) (data_path base_url : String)
    (server : Nat → Resp) :
    mainRun uuid data_path base_url Dataset.missing server =
      { requests := []
      , output := [notFoundLine data_path]
      , outcome := Outcome.exitOk } := rfl

/-- Claim C5 is false as stated: on a fully successful run over the
two-record dataset A, B the console output is not just the two cleared
lines followed by Done!: the script also prints a header line first. -/
theorem c5_counterexample :
    (mainRun id "data" "u" (validDataset ["A", "B"]) okServer).output ≠
      [clearedLine "A" (id "A"), clearedLine "B" (id "B"), "Done!"] := by
  decide

/-- Claim C5 (amended): on a fully successful run the console output is a
header line reporting the record count, then one cleared line per record
in file order, then the single final Done! line. -/
theorem mainRun_success_output (uuid : String → String) (data_path base_url : String)
    (sids : List String) (server : Nat → Resp) (h : allSuccess server) :
    (mainRun uuid data_path base_url (validDataset sids) server).output =
      headerLine sids.length ::
        sids.map (fun sid => clearedLine sid (uuid sid)) ++ ["Done!"] := by
  have hl := clearLoop_all_success uuid base_url server h sids 0
  have hmain := mainRun_records uuid data_path base_url (sids.map goodSample) server
  rw [hl] at hmain
  simp only [validDataset]
  rw [hmain]
  simp

/-- Witness for the amended C5 at a concrete input. -/
theorem mainRun_success_output_witness :
    (mainRun id "data" "u" (validDataset ["A", "B"]) okServer).output =
      headerLine (["A", "B"] : List String).length ::
        (["A", "B"] : List String).map (fun sid => clearedLine sid (id sid)) ++ ["Done!"] :=
  mainRun_success_output id "data" "u" ["A", "B"] okServer (fun _ => rfl)

/-- Every request the loop ever issues has the fixed clearing shape. -/
theorem clearLoop_requests_mem (uuid : String → String) (base_url : String)
    (server : Nat → Resp) :
    ∀ (samples : List Sample) (n : Nat) (req : Request),
      req ∈ (clearLoop uuid base_url server samples n).1 →
      ∃ a, req = clearChunksRequest base_url a := by
  intro samples
  induction samples with
  | nil => intro n req h; simp [clearLoop] at h
  | cons s rest ih =>
    intro n req h
    cases hsid : s.sample_id with
    | none => simp [clearLoop, hsid] at h
    | some sid =>
      cases hs : server n with
      | fail =>
        simp [clearLoop, hsid, hs] at h
        exact ⟨uuid sid, h⟩
      | status code =>
        by_cases h2 : is2xx code = true
        · simp [clearLoop, hsid, hs, h2] at h
          rcases h with h | h
          · exact ⟨uuid sid, h⟩
          · exact ih (n + 1) req h
        · simp [clearLoop, hsid, hs, h2] at h
          exact ⟨uuid sid, h⟩

/-- The loop ends normally exactly when every record got a 2xx response. -/
theorem clearLoop_exitOk_iff (uuid : String → String) (base_url : String)
    (server : Nat → Resp) :
    ∀ (sids : List String) (n : Nat),
      (clearLoop uuid base_url server (sids.map goodSample) n).2.2 = Outcome.exitOk ↔
        ∀ i, i < sids.length → respOk (server (n + i)) = true := by
  intro sids
  induction sids with
  | nil => intro n; simp [clearLoop]
  | cons sid rest ih =>
    intro n
    cases hs : server n with
    | fail =>
      have hL : (clearLoop uuid base_url server ((sid :: rest).map goodSample) n).2.2 =
          Outcome.requestError := by
        simp [clearLoop, goodSample, hs]
      rw [hL]
      constructor
      · intro h; cases h
      · intro h
        have h0 := h 0 (Nat.succ_pos _)
        rw [Nat.add_zero, hs] at h0
        simp [respOk] at h0
    | status code =>
      by_cases h2 : is2xx code = true
      · have hL : (clearLoop uuid base_url server ((sid :: rest).map goodSample) n).2.2 =
            (clearLoop uuid base_url server (rest.map goodSample) (n + 1)).2.2 := by
          simp [clearLoop, goodSample, hs, h2]
        rw [hL, ih (n + 1)]
        constructor
        · intro h i hi
          cases i with
          | zero =>
            rw [Nat.add_zero, hs]
            simpa [respOk] using h2
          | succ i' =>
            have hr := h i' (by simpa using hi)
            rwa [show n + 1 + i' = n + (i' + 1) by omega] at hr
        · intro h i hi
          have hr := h (i + 1) (by simpa using hi)
          rwa [show n + (i + 1) = n + 1 + i by omega] at hr
      · have hL : (clearLoop uuid base_url server ((sid :: rest).map goodSample) n).2.2 =
            Outcome.httpError code := by
          simp [clearLoop, goodSample, hs, h2]
        rw [hL]
        constructor
        · intro h; cases h
        · intro h
          have h0 := h 0 (Nat.succ_pos _)
          rw [Nat.add_zero, hs] at h0
          exact absurd (by simpa [respOk] using h0) h2

/-- Claim C6: every clearing request is an HTTP POST to the path
/memory/clear-chunks appended to the configured base URL, its JSON body
carrying as agent_id the identifier derived from one of the records; and
the run over a valid dataset completes normally exactly when every
response is a 2xx status, any other response being a propagated fatal
error. -/
theorem mainRun_request_protocol (uuid : String → String) (data_path base_url : String)
    (sids : List String) (server : Nat → Resp) :
    (∀ req, req ∈ (mainRun uuid data_path base_url (validDataset sids) server).requests →
      req.method = "POST" ∧ req.url = base_url ++ "/memory/clear-chunks" ∧
      ∃ sid i, sids.get? i = some sid ∧ req.agent_id = uuid sid) ∧
    ((mainRun uuid data_path base_url (validDataset sids) server).outcome =
        Outcome.exitOk ↔
      ∀ i, i < sids.length → respOk (server i) = true) := by
  have hmain := mainRun_records uuid data_path base_url (sids.map goodSample) server
  constructor
  · intro req hreq
    simp only [validDataset] at hreq
    rw [hmain] at hreq
    rcases List.mem_iff_get?.mp hreq with ⟨i, hi⟩
    rcases clearLoop_get? uuid base_url server sids 0 i req hi with ⟨sid, hsid, hreqEq⟩
    subst hreqEq
    exact ⟨rfl, rfl, sid, i, hsid, rfl⟩
  · simp only [validDataset]
    rw [hmain]
    have := clearLoop_exitOk_iff uuid base_url server sids 0
    simpa using this

/-- Witness for C6 at a concrete input. -/
theorem mainRun_request_protocol_witness :
    ((clearChunksRequest "u" (id "A")).method = "POST" ∧
      (clearChunksRequest "u" (id "A")).url = "u" ++ "/memory/clear-chunks" ∧
      ∃ sid i, (["A"] : List String).get? i = some sid ∧
        (clearChunksRequest "u" (id "A")).agent_id = id sid) ∧
    (mainRun id "data" "u" (validDataset ["A"]) okServer).outcome = Outcome.exitOk :=
  ⟨(mainRun_request_protocol id "data" "u" ["A"] okServer).1
      (clearChunksRequest "u" (id "A")) (by decide),
   (mainRun_request_protocol id "data" "u" ["A"] okServer).2.mpr (by decide)⟩

/-- If all records before a record lacking sample_id succeed, the loop
ends with the propagated key lookup failure. -/
theorem clearLoop_keyError_at (uuid : String → String) (base_url : String) :
    ∀ (sids : List String) (server : Nat → Resp) (rest : List Sample) (n : Nat),
      (∀ i, i < sids.length → respOk (server (n + i)) = true) →
      (clearLoop uuid base_url server
        (sids.map goodSample ++ badSample :: rest) n).2.2 = Outcome.keyError := by
  intro sids
  induction sids with
  | nil =>
    intro server rest n _
    simp [clearLoop, badSample]
  | cons sid tail ih =>
    intro server rest n hok
    have h0 : respOk (server n) = true := by
      have := hok 0 (Nat.succ_pos _)
      rwa [Nat.add_zero] at this
    cases hs : server n with
    | fail => rw [hs] at h0; simp [respOk] at h0
    | status code =>
      rw [hs] at h0
      simp only [respOk] at h0
      have ihres := ih server rest (n + 1) (fun i hi => by
        have := hok (i + 1) (Nat.succ_lt_succ hi)
        rwa [show n + (i + 1) = n + 1 + i by omega] at this)
      simp [clearLoop, goodSample, hs, h0, ihres]

/-- Claim C7: a malformed dataset file ends the run with the propagated
parse failure, and a record lacking the sample_id field (after records
that were cleared successfully) ends it with the propagated key lookup
failure; neither is the normal exit, so the condition is fatal and never
recovered, skipped or ignored. -/
theorem mainRun_format_error_fatal (uuid : String → String)
    (data_path base_url : String) (server : Nat → Resp)
    (sids : List String) (rest : List Sample)
    (hok : ∀ i, i < sids.length → respOk (server i) = true) :
    (mainRun uuid data_path base_url Dataset.malformed server).outcome =
      Outcome.parseError ∧
    (mainRun uuid data_path base_url
        (Dataset.records (sids.map goodSample ++ badSample :: rest)) server).outcome =
      Outcome.keyError ∧
    Outcome.parseError ≠ Outcome.exitOk ∧
    Outcome.keyError ≠ Outcome.exitOk := by
  refine ⟨rfl, ?_, by decide, by decide⟩
  rw [mainRun_records uuid data_path base_url (sids.map goodSample ++ badSample :: rest)
    server]
  exact clearLoop_keyError_at uuid base_url sids server rest 0 (fun i hi => by
    rw [Nat.zero_add]; exact hok i hi)

/-- Witness for C7 at a concrete input. -/
theorem mainRun_format_error_fatal_witness :
    (mainRun id "data" "u" Dataset.malformed okServer).outcome = Outcome.parseError ∧
    (mainRun id "data" "u"
        (Dataset.records ((["A"] : List String).map goodSample ++ badSample :: []))
        okServer).outcome = Outcome.keyError ∧
    Outcome.parseError ≠ Outcome.exitOk ∧
    Outcome.keyError ≠ Outcome.exitOk :=
  mainRun_format_error_fatal id "data" "u" okServer ["A"] [] (by decide)

/-- Concrete server accepting the first request and never answering the
second (timeout), for witnesses. -/
def failServer : Nat → Resp :=
  fun n => if n = 0 then Resp.status 200 else Resp.fail

/-- If all earlier responses succeed and the response to the next record
request never arrives, the loop ends with the propagated request error,
having issued requests only up to and including that record. -/
theorem clearLoop_timeout_at (uuid : String → String) (base_url : String) :
    ∀ (sids : List String) (server : Nat → Resp) (sid2 : String)
      (rest : List Sample) (n : Nat),
      (∀ i, i < sids.length → respOk (server (n + i)) = true) →
      server (n + sids.length) = Resp.fail →
      clearLoop uuid base_url server
          (sids.map goodSample ++ goodSample sid2 :: rest) n =
        (sids.map (fun s => clearChunksRequest base_url (uuid s)) ++
           [clearChunksRequest base_url (uuid sid2)],
         sids.map (fun s => clearedLine s (uuid s)),
         Outcome.requestError) := by
  intro sids
  induction sids with
  | nil =>
    intro server sid2 rest n _ hfail
    rw [List.length_nil, Nat.add_zero] at hfail
    simp [clearLoop, goodSample, hfail]
  | cons sid tail ih =>
    intro server sid2 rest n hok hfail
    have h0 : respOk (server n) = true := by
      have := hok 0 (Nat.succ_pos _)
      rwa [Nat.add_zero] at this
    cases hs : server n with
    | fail => rw [hs] at h0; simp [respOk] at h0
    | status code =>
      rw [hs] at h0
      simp only [respOk] at h0
      have ihres := ih server sid2 rest (n + 1)
        (fun i hi => by
          have := hok (i + 1) (Nat.succ_lt_succ hi)
          rwa [show n + (i + 1) = n + 1 + i by omega] at this)
        (by rwa [show n + 1 + tail.length = n + (sid :: tail).length by simp; omega])
      simp only [goodSample] at ihres
      simp [clearLoop, goodSample, hs, h0, ihres]

/-- Claim C8: every issued request carries the fixed 30 second timeout;
and a request whose response never arrives is fatal to the whole run: the
loop stops right there with the propagated request error, so no later
record gets a request and there is no retry. -/
theorem mainRun_timeout_fatal (uuid : String → String) (data_path base_url : String)
    (dataset : Dataset) (server : Nat → Resp)
    (sids : List String) (sid2 : String) (rest : List Sample) (serverT : Nat → Resp)
    (hok : ∀ i, i < sids.length → respOk (serverT i) = true)
    (hfail : serverT sids.length = Resp.fail) :
    (∀ req, req ∈ (mainRun uuid data_path base_url dataset server).requests →
      req.timeout = 30) ∧
    (mainRun uuid data_path base_url
        (Dataset.records (sids.map goodSample ++ goodSample sid2 :: rest))
        serverT).outcome = Outcome.requestError ∧
    (mainRun uuid data_path base_url
        (Dataset.records (sids.map goodSample ++ goodSample sid2 :: rest))
        serverT).requests.length = sids.length + 1 ∧
    Outcome.requestError ≠ Outcome.exitOk := by
  have hloop := clearLoop_timeout_at uuid base_url sids serverT sid2 rest 0
    (fun i hi => by rw [Nat.zero_add]; exact hok i hi)
    (by rwa [Nat.zero_add])
  refine ⟨?_, ?_, ?_, by decide⟩
  · intro req hreq
    cases dataset with
    | missing => simp [mainRun] at hreq
    | malformed => simp [mainRun] at hreq
    | records samples =>
      rw [mainRun_records] at hreq
      rcases clearLoop_requests_mem uuid base_url server samples 0 req hreq with ⟨a, ha⟩
      rw [ha]
      rfl
  · rw [mainRun_records, hloop]
  · rw [mainRun_records, hloop]
    simp

/-- Witness for C8 at a concrete input. -/
theorem mainRun_timeout_fatal_witness :
    (clearChunksRequest "u" (id "A")).timeout = 30 ∧
    (mainRun id "data" "u"
        (Dataset.records ((["A"] : List String).map goodSample ++ goodSample "B" :: []))
        failServer).outcome = Outcome.requestError ∧
    (mainRun id "data" "u"
        (Dataset.records ((["A"] : List String).map goodSample ++ goodSample "B" :: []))
        failServer).requests.length = (["A"] : List String).length + 1 ∧
    Outcome.requestError ≠ Outcome.exitOk :=
  have h := mainRun_timeout_fatal id "data" "u" (validDataset ["A"]) okServer
    ["A"] "B" [] failServer (by decide) (by decide)
  ⟨h.1 (clearChunksRequest "u" (id "A")) (by decide), h.2.1, h.2.2.1, h.2.2.2⟩

/-- Concrete server answering 204 to everything, for witnesses. -/
def okServer204 : Nat → Resp := fun _ => Resp.status 204

/-- Claim C9: two runs over the same dataset, each against a server that
answers success to every request, are indistinguishable: same request
sequence (hence same derived identifiers in the same order), same console
output, same outcome. -/
theorem mainRun_deterministic (uuid : String → String) (data_path base_url : String)
    (sids : List String) (s1 s2 : Nat → Resp)
    (h1 : allSuccess s1) (h2 : allSuccess s2) :
    mainRun uuid data_path base_url (validDataset sids) s1 =
      mainRun uuid data_path base_url (validDataset sids) s2 := by
  simp only [validDataset]
  rw [mainRun_records, mainRun_records, clearLoop_all_success uuid base_url s1 h1,
    clearLoop_all_success uuid base_url s2 h2]

/-- Witness for C9 at a concrete input: the two servers answer different
success statuses, yet the runs coincide. -/
theorem mainRun_deterministic_witness :
    mainRun id "data" "u" (validDataset ["A", "B"]) okServer =
      mainRun id "data" "u" (validDataset ["A", "B"]) okServer204 :=
  mainRun_deterministic id "data" "u" ["A", "B"] okServer okServer204
    (fun _ => rfl) (fun _ => rfl)

/-- Claim C10: when the file exists but fails to parse, the failure
happens before the HTTP client exists, so zero requests are issued and
the parse failure propagates with the server never contacted. -/
theorem mainRun_malformed_no_requests (uuid : String → String)
    (data_path base_url : String) (server : Nat → Resp) :
    (mainRun uuid data_path base_url Dataset.malformed server).requests = [] ∧
    (mainRun uuid data_path base_url Dataset.malformed server).outcome =
      Outcome.parseError :=
  ⟨rfl, rfl⟩
